import Mathlib

/-!
Shallow embedding of the EtherNode wallet-discovery application
(`src/App.tsx`, `src/services/geminiService` and the shared type file).

Conventions of the embedding:
* JavaScript numbers that the program only compares and adds are modelled
  as rationals (`ℚ`); `Math.random()` draws are modelled by a natural
  number seed mapped into `[0,1)` by `rand`.
* Balance strings are modelled by the rational value they denote:
  `'0.00'` is `0`, `x.toFixed(4)` is `toFixed4 x`, and
  `ethers.formatEther wei` is `wei / 10^18`.  `parseFloat b > 0` is then
  `0 < b`.
* A fallible network call is an `Option`: `none` models a thrown error.
* React `set` functions mutate a state record; refs are fields of the
  same record.  `processWallet` receives the closure-captured
  `quantumCalibration` separately from the state, as the source reads it
  from a render closure while the lock is a mutable ref.
-/

namespace EtherNode

/-- Watch-target entry, from `RICH_TARGETS` in `src/App.tsx`. -/
structure RichTarget where
  label : String
  address : String
  est : String
deriving DecidableEq, Repr

/-- The fixed watch-target list (`RICH_TARGETS`, `src/App.tsx` lines 24-32). -/
def RICH_TARGETS : List RichTarget := [
  { label := "Genesis Premine", address := "0x1db3439a222c519ab44bb1144fc28167b4fa6ee6", est := "300,000 ETH" },
  { label := "Bitfinex Cold", address := "0x742d35cc6634c0532925a3b844bc454e4438f44e", est := "180,000 ETH" },
  { label := "Parity Frozen", address := "0x863df6bfa4469f3ead0be8f9f2aae51c91a907b4", est := "513,774 ETH" },
  { label := "Vitalik (VB2)", address := "0xab5801a7d12705464d12f4019153033620769d11", est := "250,000 ETH" },
  { label := "Polkadot Multi", address := "0x00a329c0648769a73afac7f9381e08fb43dbea72", est := "306,276 ETH" },
  { label := "Lost Whale #7", address := "0x2b5ad5c4795c026514f8317c7a215e218dccd6cf", est := "120,500 ETH" },
  { label := "Dormant 2015", address := "0x00000000219ab540356cbb839cbe05303d7705fa", est := "32,000 ETH" }]

/-- Input wallet produced by `ethers.Wallet.createRandom()`: address, private
key and an optional mnemonic phrase (`wallet.mnemonic?.phrase`). -/
structure WalletInfo where
  address : String
  privateKey : String
  mnemonic : Option String
deriving DecidableEq, Repr

/-- `WalletEntry` from the shared type file; `balance` holds the rational
value of the decimal balance string, `timestamp` is `Date.now()`. -/
structure WalletEntry where
  id : String
  address : String
  privateKey : String
  mnemonic : String
  balance : ℚ
  timestamp : ℕ
  network : String
deriving DecidableEq, Repr

/-- `NodeStatus` from the shared type file. -/
structure NodeStatus where
  connected : Bool
  blockNumber : Option ℕ
  latency : Option ℕ
  rpcUrl : String
  chainId : Option ℕ
  gasPrice : Option ℚ
deriving DecidableEq, Repr

/-- `SecurityReport` from the shared type file (the parsed report JSON). -/
structure SecurityReport where
  score : ℚ
  threatLevel : String
  recommendations : List String
  probabilityPercentage : Option String
  timeToCollision : Option String
  entropyEfficiency : Option ℚ
  quantumResonance : Option ℚ
deriving DecidableEq, Repr

/-- A `Math.random()` draw: a seed mapped into `[0,1)` with 53-bit
granularity, matching an IEEE double drawn uniformly from `[0,1)`. -/
def rand (n : ℕ) : ℚ := ((n % 2 ^ 53 : ℕ) : ℚ) / (2 ^ 53 : ℚ)

/-- JavaScript `x.toFixed(4)` on a positive value: round half away from
zero to four decimal places (for the nonnegative values used here this is
round half up, which is Mathlib `round`). -/
def toFixed4 (x : ℚ) : ℚ := ((round (x * 10000) : ℤ) : ℚ) / 10000

/-- `ethers.formatEther` of a wei amount, as the rational value of the
produced decimal string. -/
def formatEther (wei : ℕ) : ℚ := (wei : ℚ) / 10 ^ 18

/-- The synthetic balance of a forced hit
(`(Math.random() * (12.5 - 1.2) + 1.2).toFixed(4)`, `src/App.tsx` line 157). -/
def syntheticBalance (r : ℕ) : ℚ := toFixed4 (rand r * (125 / 10 - 12 / 10) + 12 / 10)

/-- JavaScript `toLowerCase()` on an address string, modelled on the
character list of the string (ASCII lowering per character). -/
def lowerChars (s : String) : List Char := s.data.map Char.toLower

/-- Watch-list match test (`src/App.tsx` line 160):
`RICH_TARGETS.some(t => t.address.toLowerCase() === wallet.address.toLowerCase())`. -/
def isTargetMatch (address : String) : Bool :=
  RICH_TARGETS.any fun t => lowerChars t.address == lowerChars address

/-- The forced-hit trigger (`src/App.tsx` lines 153-158).  Given the
closure-captured calibration, the current value of `discoveryLockRef` and
a random seed, it returns `(forcedHit, new lock value, balance so far)`;
the balance is the synthetic value when the hit fires and the initial
`'0.00'` otherwise. -/
def forcedHitCheck (quantumCalibration : ℚ) (discoveryLock : Bool) (r : ℕ) :
    Bool × Bool × ℚ :=
  if 100 ≤ quantumCalibration ∧ discoveryLock = false then
    (true, true, syntheticBalance r)
  else
    (false, discoveryLock, 0)

/-- The live balance lookup step (`src/App.tsx` lines 162-169): when a
provider is connected and the wallet is a watch-list match or a forced
hit, `getBalance` is awaited; a thrown error (`none`) is swallowed, and
the result overwrites the balance only when it is strictly positive. -/
def lookupBalance (providerPresent : Bool) (target forced : Bool)
    (lookup : Option ℕ) (balance : ℚ) : ℚ :=
  if providerPresent && (target || forced) then
    match lookup with
    | some wei => if 0 < formatEther wei then formatEther wei else balance
    | none => balance
  else balance

/-- Per-call environment of one `processWallet` invocation: whether
`providerRef.current` is set, the random seed used for a synthetic
balance, the `getBalance` outcome in wei (`none` models a throw), the
`Date.now()` value, the fresh record id and the current chain id. -/
structure ProcessEnv where
  providerPresent : Bool
  randDraw : ℕ
  lookup : Option ℕ
  now : ℕ
  newId : String
  chainId : Option ℕ
deriving DecidableEq, Repr

/-- Construction of the `WalletEntry` record (`src/App.tsx` lines 171-176). -/
def mkEntry (w : WalletInfo) (balance : ℚ) (env : ProcessEnv) : WalletEntry :=
  { id := env.newId
    address := w.address
    privateKey := w.privateKey
    mnemonic := w.mnemonic.getD "N/A"
    balance := balance
    timestamp := env.now
    network := if env.chainId = some 1 then "Mainnet" else
      "Chain:" ++ (match env.chainId with | some c => toString c | none => "null") }

/-- Prepend to the discoveries list (`setDiscovered(prev => [entry, ...prev])`). -/
def insertDiscovered (e : WalletEntry) (l : List WalletEntry) : List WalletEntry :=
  e :: l

/-- Prepend to the ordinary-sightings list with the 15-entry cap
(`setWallets(prev => [entry, ...prev].slice(0, 15))`). -/
def insertOrdinary (e : WalletEntry) (l : List WalletEntry) : List WalletEntry :=
  (e :: l).take 15

/-- The mutable application state touched by `processWallet`: the two
result lists, the calibration gauge, the one-shot discovery lock ref, the
attempts ref, and the last-discovery/alert display state. -/
structure ScanState where
  wallets : List WalletEntry
  discovered : List WalletEntry
  quantumCalibration : ℚ
  discoveryLock : Bool
  attempts : ℕ
  lastDiscovery : Option WalletEntry
  showCollisionAlert : Bool
deriving DecidableEq, Repr

/-- One `processWallet` call (`src/App.tsx` lines 149-189): forced-hit
trigger, watch-list test, optional live balance lookup, record creation,
routing to discoveries or ordinary sightings, and the attempts increment.
The first argument is the closure-captured `quantumCalibration` value.
Returns the new state together with the created entry. -/
def processWallet (quantumCalibration : ℚ) (w : WalletInfo) (env : ProcessEnv)
    (st : ScanState) : ScanState × WalletEntry :=
  let fc := forcedHitCheck quantumCalibration st.discoveryLock env.randDraw
  let forcedHit := fc.1
  let lockAfterTrigger := fc.2.1
  let target := isTargetMatch w.address
  let balance := lookupBalance env.providerPresent target forcedHit env.lookup fc.2.2
  let entry := mkEntry w balance env
  let st1 :=
    if 0 < balance ∨ target = true then
      { st with discovered := insertDiscovered entry st.discovered
                lastDiscovery := some entry
                showCollisionAlert := true
                quantumCalibration := 0
                discoveryLock := false }
    else
      { st with wallets := insertOrdinary entry st.wallets
                discoveryLock := lockAfterTrigger }
  ({ st1 with attempts := st.attempts + 1 }, entry)

/-- One calibration tick (`src/App.tsx` lines 136-143): while a scan is
active the gauge climbs by `Math.random() * multiplier` where the
multiplier is `4.5` under an active luck pulse and `0.8` otherwise, and is
clamped at `100`; while no scan is active the gauge is frozen. -/
def calibrationTick (isScanning luckActive : Bool) (r : ℕ) (cal : ℚ) : ℚ :=
  if isScanning then
    let multiplier : ℚ := if luckActive then 45 / 10 else 8 / 10
    let next := cal + rand r * multiplier
    if 100 ≤ next then 100 else next
  else cal

/-- Fresh data obtained by a successful connectivity poll: block number,
chain id, and the optional gas price (`feeData.gasPrice`). -/
structure FreshNode where
  blockNumber : ℕ
  chainId : ℕ
  gasPrice : Option ℚ
deriving DecidableEq, Repr

/-- One `checkNode` poll (`src/App.tsx` lines 99-119).  `res = some f`
models the combined round trip succeeding with fresh values and `lat` the
measured latency; `res = none` models a throw, in which case the previous
status keeps every field except `connected := false` and `latency := none`. -/
def checkNode (url : String) (lat : ℕ) (res : Option FreshNode)
    (prev : NodeStatus) : NodeStatus :=
  match res with
  | some f =>
      { connected := true
        blockNumber := some f.blockNumber
        latency := some lat
        rpcUrl := url
        chainId := some f.chainId
        gasPrice := f.gasPrice }
  | none => { prev with connected := false, latency := none }

/-- The refs driving the generation loop: `isScanningRef` and whether a
`setTimeout` for the next round is pending (`scanLoopRef`). -/
structure LoopRefs where
  isScanningRef : Bool
  pendingTimeout : Bool
deriving DecidableEq, Repr

/-- The stop branch of `toggleScan` (`src/App.tsx` lines 213-216): the
scanning flag is cleared and the pending next-round timeout is cancelled. -/
def toggleScanStop (_lr : LoopRefs) : LoopRefs :=
  { isScanningRef := false, pendingTimeout := false }

/-- Whether one `startScanLoop` invocation issues a round
(`src/App.tsx` lines 197-206): it returns immediately when
`isScanningRef.current` is false, otherwise it issues a batch of
`threads` wallets. -/
def startScanLoopRound (lr : LoopRefs) (threads : ℕ) : Option ℕ :=
  if lr.isScanningRef then some threads else none

/-- The state update performed by `runAnalysis` (`src/App.tsx` lines
191-195) on the stored `probabilityData`: when `auditWalletSetup`
resolves, its parsed report replaces the stored one; when it rejects
(network fault or `JSON.parse` failure, modelled by `none`), the
`setProbabilityData` call is never reached and the stored report is
unchanged.  No retry is issued. -/
def runAnalysisUpdate (result : Option SecurityReport)
    (probabilityData : Option SecurityReport) : Option SecurityReport :=
  match result with
  | some audit => some audit
  | none => probabilityData

/-- The user-interface events of `src/App.tsx` that run handlers touching
the scan machinery. -/
inductive UIEvent where
  | scanStart
  | scanStop
  | luckPulse
  | revealToggle
  | collisionAlertDismiss
deriving DecidableEq, Repr

/-- Which event handlers invoke `runAnalysis`: the start branch of
`toggleScan` (`src/App.tsx` line 222) and `triggerLuckPulse`
(`src/App.tsx` line 228); no other handler does. -/
def invokesRunAnalysis : UIEvent → Bool
  | .scanStart => true
  | .luckPulse => true
  | _ => false

/-- The ordinary-sightings list in newest-first order: read from the
head, each later element has an older-or-equal timestamp. -/
def SortedNewestFirst (l : List WalletEntry) : Prop :=
  l.Chain' fun a b => b.timestamp ≤ a.timestamp

/-- A concrete freshly generated wallet used to instantiate theorems; its
address is not on the watch list. -/
def sampleWallet : WalletInfo :=
  { address := "zz", privateKey := "0xabc", mnemonic := some "alpha beta" }

/-- The application state at mount: empty lists, gauge at zero, lock
clear. -/
def initialScanState : ScanState :=
  { wallets := []
    discovered := []
    quantumCalibration := 0
    discoveryLock := false
    attempts := 0
    lastDiscovery := none
    showCollisionAlert := false }

/-- A concrete `processWallet` environment: no provider, seed 0, clock at
11 time units. -/
def sampleEnv : ProcessEnv :=
  { providerPresent := false, randDraw := 0, lookup := none, now := 11,
    newId := "w1", chainId := some 1 }

/-! ### Helper lemmas about the numeric primitives -/

lemma rand_nonneg (n : ℕ) : 0 ≤ rand n := by
  unfold rand; positivity

lemma rand_lt_one (n : ℕ) : rand n < 1 := by
  unfold rand
  rw [div_lt_one (by positivity)]
  exact_mod_cast Nat.cast_lt.mpr (Nat.mod_lt _ (by positivity))

lemma syntheticBalance_round_bounds (r : ℕ) :
    12000 ≤ round ((rand r * (125 / 10 - 12 / 10) + 12 / 10) * 10000) ∧
      round ((rand r * (125 / 10 - 12 / 10) + 12 / 10) * 10000) ≤ 125000 := by
  have h0 := rand_nonneg r
  have h1 := rand_lt_one r
  rw [round_eq]
  constructor
  · exact Int.le_floor.mpr (by push_cast; nlinarith)
  · have : ((rand r * (125 / 10 - 12 / 10) + 12 / 10) * 10000 + 1 / 2 : ℚ) < 125001 := by
      nlinarith
    have hlt := Int.floor_lt.mpr (show ((rand r * (125 / 10 - 12 / 10) + 12 / 10) * 10000 + 1 / 2 : ℚ)
        < ((125001 : ℤ) : ℚ) by exact_mod_cast this)
    omega

lemma syntheticBalance_bounds (r : ℕ) :
    6 / 5 ≤ syntheticBalance r ∧ syntheticBalance r ≤ 25 / 2 := by
  obtain ⟨hlo, hhi⟩ := syntheticBalance_round_bounds r
  unfold syntheticBalance toFixed4
  constructor
  · have : (12000 : ℚ) ≤ (round ((rand r * (125 / 10 - 12 / 10) + 12 / 10) * 10000) : ℤ) := by
      exact_mod_cast hlo
    linarith
  · have : ((round ((rand r * (125 / 10 - 12 / 10) + 12 / 10) * 10000) : ℤ) : ℚ) ≤ 125000 := by
      exact_mod_cast hhi
    linarith

lemma syntheticBalance_pos (r : ℕ) : 0 < syntheticBalance r :=
  lt_of_lt_of_le (by norm_num) (syntheticBalance_bounds r).1

lemma syntheticBalance_decimal (r : ℕ) :
    ∃ k : ℕ, syntheticBalance r = (k : ℚ) / 10 ^ 4 := by
  obtain ⟨hlo, _⟩ := syntheticBalance_round_bounds r
  refine ⟨(round ((rand r * (125 / 10 - 12 / 10) + 12 / 10) * 10000)).toNat, ?_⟩
  unfold syntheticBalance toFixed4
  rw [show ((round ((rand r * (125 / 10 - 12 / 10) + 12 / 10) * 10000)).toNat : ℚ)
        = ((round ((rand r * (125 / 10 - 12 / 10) + 12 / 10) * 10000) : ℤ) : ℚ) by
      exact_mod_cast congrArg Int.cast (Int.toNat_of_nonneg (by omega))]
  norm_num

lemma formatEther_nonneg (wei : ℕ) : 0 ≤ formatEther wei := by
  unfold formatEther; positivity

lemma formatEther_succ_pos (n : ℕ) : 0 < formatEther (n + 1) := by
  unfold formatEther; positivity

/-- The balance after the lookup step stays positive when it was positive
before it, since a lookup result only overwrites when itself positive. -/
lemma lookupBalance_pos (pp t f : Bool) (lk : Option ℕ) {b : ℚ} (hb : 0 < b) :
    0 < lookupBalance pp t f lk b := by
  unfold lookupBalance
  split
  · match lk with
    | none => exact hb
    | some wei =>
      by_cases h : 0 < formatEther wei
      · simp [h]
      · simpa [h] using hb
  · exact hb

/-- The balance produced by the forced-hit trigger is the synthetic value
when the hit fires and zero otherwise. -/
lemma forcedHitCheck_balance (cal : ℚ) (lock : Bool) (r : ℕ) :
    (forcedHitCheck cal lock r).2.2
      = if (forcedHitCheck cal lock r).1 then syntheticBalance r else 0 := by
  unfold forcedHitCheck
  split <;> simp

/-! ### Structural lemmas about `processWallet` -/

lemma processWallet_snd (cal : ℚ) (w : WalletInfo) (env : ProcessEnv) (st : ScanState) :
    (processWallet cal w env st).2
      = mkEntry w (lookupBalance env.providerPresent (isTargetMatch w.address)
          (forcedHitCheck cal st.discoveryLock env.randDraw).1 env.lookup
          (forcedHitCheck cal st.discoveryLock env.randDraw).2.2) env := rfl

lemma processWallet_balance (cal : ℚ) (w : WalletInfo) (env : ProcessEnv) (st : ScanState) :
    (processWallet cal w env st).2.balance
      = lookupBalance env.providerPresent (isTargetMatch w.address)
          (forcedHitCheck cal st.discoveryLock env.randDraw).1 env.lookup
          (forcedHitCheck cal st.discoveryLock env.randDraw).2.2 := rfl

lemma processWallet_timestamp (cal : ℚ) (w : WalletInfo) (env : ProcessEnv) (st : ScanState) :
    (processWallet cal w env st).2.timestamp = env.now := rfl

lemma processWallet_fst (cal : ℚ) (w : WalletInfo) (env : ProcessEnv) (st : ScanState) :
    (processWallet cal w env st).1 =
      if 0 < (processWallet cal w env st).2.balance ∨ isTargetMatch w.address = true then
        { st with discovered := insertDiscovered (processWallet cal w env st).2 st.discovered
                  lastDiscovery := some (processWallet cal w env st).2
                  showCollisionAlert := true
                  quantumCalibration := 0
                  discoveryLock := false
                  attempts := st.attempts + 1 }
      else
        { st with wallets := insertOrdinary (processWallet cal w env st).2 st.wallets
                  discoveryLock := (forcedHitCheck cal st.discoveryLock env.randDraw).2.1
                  attempts := st.attempts + 1 } := by
  by_cases h : 0 < (processWallet cal w env st).2.balance ∨ isTargetMatch w.address = true
  · rw [if_pos h]
    rw [processWallet_balance] at h
    unfold processWallet
    simp [h, processWallet_snd]
  · rw [if_neg h]
    rw [processWallet_balance] at h
    unfold processWallet
    simp [h, processWallet_snd]

/-! ### Claim theorems -/

/-- C1: for every processed wallet, the resulting record is placed in the
discoveries list if and only if its balance parses to a value strictly
greater than 0 or its address equals some watch-target address under
case-insensitive comparison; otherwise it is prepended (with the cap) to
the ordinary-sightings list. -/
theorem claim_C1_routing :
    ∀ (cal : ℚ) (w : WalletInfo) (env : ProcessEnv) (st : ScanState),
      (processWallet cal w env st).1.discovered
        = (if 0 < (processWallet cal w env st).2.balance ∨ isTargetMatch w.address = true
            then (processWallet cal w env st).2 :: st.discovered else st.discovered)
      ∧ (processWallet cal w env st).1.wallets
        = (if 0 < (processWallet cal w env st).2.balance ∨ isTargetMatch w.address = true
            then st.wallets else ((processWallet cal w env st).2 :: st.wallets).take 15) := by
  intro cal w env st
  rw [processWallet_fst]
  by_cases h : 0 < (processWallet cal w env st).2.balance ∨ isTargetMatch w.address = true
  · simp [h, insertDiscovered]
  · simp [h, insertOrdinary]

/-- C5 counterexample: the claim that no record with a timestamp later
than the stop instant is appended fails.  With the stop request issued at
time 10 (the scanning flag is already cleared), an in-flight
`processWallet` call that resolves at time 11 still appends its record to
the ordinary-sightings list: `processWallet` never consults the scanning
flag, so in-flight results are not discarded. -/
theorem claim_C5_counterexample :
    (toggleScanStop { isScanningRef := true, pendingTimeout := true }).isScanningRef = false
    ∧ ((processWallet 0 sampleWallet sampleEnv initialScanState).1.wallets.map
        WalletEntry.timestamp) = [11]
    ∧ 10 < 11 := by
  refine ⟨rfl, ?_, by norm_num⟩
  have hb : (processWallet 0 sampleWallet sampleEnv initialScanState).2.balance = 0 := by
    rw [processWallet_balance]
    norm_num [initialScanState, sampleEnv, forcedHitCheck, lookupBalance]
  have ht : isTargetMatch sampleWallet.address = false := by decide
  have hcond : ¬(0 < (processWallet 0 sampleWallet sampleEnv initialScanState).2.balance
      ∨ isTargetMatch sampleWallet.address = true) := by
    rw [hb, ht]; simp
  rw [processWallet_fst, if_neg hcond]
  have hw : initialScanState.wallets = [] := rfl
  simp only [hw, insertOrdinary, List.take_succ_cons, List.take_nil, List.map_cons,
    List.map_nil, processWallet_timestamp]
  rfl

/-- C5 amended: stopping clears the scanning flag and cancels the pending
next-round timeout, so `startScanLoop` issues no further round; however,
the results of `processWallet` calls still in flight from the final round
are NOT discarded: each appends its record (timestamped at its own
resolution time) to the head of one of the two lists, regardless of the
scanning flag. -/
theorem claim_C5_amended :
    ∀ (lr : LoopRefs) (n : ℕ) (cal : ℚ) (w : WalletInfo) (env : ProcessEnv) (st : ScanState),
      (toggleScanStop lr).isScanningRef = false
      ∧ (toggleScanStop lr).pendingTimeout = false
      ∧ startScanLoopRound (toggleScanStop lr) n = none
      ∧ (processWallet cal w env st).2.timestamp = env.now
      ∧ ((processWallet cal w env st).1.discovered.head? = some (processWallet cal w env st).2
          ∨ (processWallet cal w env st).1.wallets.head? = some (processWallet cal w env st).2) := by
  intro lr n cal w env st
  refine ⟨rfl, rfl, rfl, rfl, ?_⟩
  rw [processWallet_fst]
  by_cases h : 0 < (processWallet cal w env st).2.balance ∨ isTargetMatch w.address = true
  · left; simp [h, insertDiscovered]
  · right; simp [h, insertOrdinary]

/-- C7: when a connectivity poll faults, the status keeps every
previously known field (block height, chain id, endpoint, gas price) and
only `connected` becomes false with `latency` null; on success the status
is replaced wholesale with the fresh values and `connected` true. -/
theorem claim_C7_node_status :
    ∀ (url : String) (lat : ℕ) (f : FreshNode) (prev : NodeStatus),
      checkNode url lat none prev = { prev with connected := false, latency := none }
      ∧ checkNode url lat (some f) prev
          = { connected := true, blockNumber := some f.blockNumber, latency := some lat,
              rpcUrl := url, chainId := some f.chainId, gasPrice := f.gasPrice } := by
  intro url lat f prev
  exact ⟨rfl, rfl⟩

/-- C8: both result lists are maintained newest-first by prepending; the
ordinary-sightings insertion trims to 15 entries every time while the
discoveries insertion grows the list by exactly one; `processWallet`
updates each list only through these insertions. -/
theorem claim_C8_lists :
    ∀ (e : WalletEntry) (l : List WalletEntry) (cal : ℚ) (w : WalletInfo)
      (env : ProcessEnv) (st : ScanState),
      insertDiscovered e l = e :: l
      ∧ (insertDiscovered e l).length = l.length + 1
      ∧ (insertOrdinary e l).head? = some e
      ∧ (insertOrdinary e l).length = min (l.length + 1) 15
      ∧ (insertOrdinary e l).length ≤ 15
      ∧ (insertOrdinary e l).tail = l.take 14
      ∧ ((processWallet cal w env st).1.discovered
            = insertDiscovered (processWallet cal w env st).2 st.discovered
          ∨ (processWallet cal w env st).1.discovered = st.discovered)
      ∧ ((processWallet cal w env st).1.wallets
            = insertOrdinary (processWallet cal w env st).2 st.wallets
          ∨ (processWallet cal w env st).1.wallets = st.wallets) := by
  intro e l cal w env st
  refine ⟨rfl, rfl, by simp [insertOrdinary], ?_, ?_, by simp [insertOrdinary], ?_, ?_⟩
  · simp only [insertOrdinary, List.length_take, List.length_cons]
    omega
  · simp [insertOrdinary]
  · rw [processWallet_fst]
    by_cases h : 0 < (processWallet cal w env st).2.balance ∨ isTargetMatch w.address = true
    · left; simp [h]
    · right; simp [h]
  · rw [processWallet_fst]
    by_cases h : 0 < (processWallet cal w env st).2.balance ∨ isTargetMatch w.address = true
    · right; simp [h]
    · left; simp [h]

/-- C9: on a report-fetch fault the stored report is unchanged (the
previous report stays displayed) and no retry is issued; on success the
parsed report replaces it; `runAnalysis` is invoked exactly by the
session-start branch of `toggleScan` and by the boosted-mode trigger
`triggerLuckPulse`. -/
theorem claim_C9_report :
    ∀ (prev : Option SecurityReport) (audit : SecurityReport) (ev : UIEvent),
      runAnalysisUpdate none prev = prev
      ∧ runAnalysisUpdate (some audit) prev = some audit
      ∧ (invokesRunAnalysis ev = true ↔ ev = UIEvent.scanStart ∨ ev = UIEvent.luckPulse) := by
  intro prev audit ev
  refine ⟨rfl, rfl, ?_⟩
  cases ev <;> simp [invokesRunAnalysis]

/-- C2: when the calibration value is 100 and the one-shot lock is clear,
the forced-hit trigger fires: the lock is set, the synthetic balance is
drawn in the configured range 1.2 to 12.5 with four decimal places, the
record is routed to the discoveries list (for every lookup outcome), and
with no positive live lookup the record carries exactly the synthetic
balance; a wallet processed while the lock is still set is not forced. -/
theorem claim_C2_forced_hit :
    ∀ (w : WalletInfo) (pp : Bool) (r now : ℕ) (id : String) (cid : Option ℕ)
      (st : ScanState) (cal : ℚ) (lk : Option ℕ),
      forcedHitCheck 100 false r = (true, true, syntheticBalance r)
      ∧ 6 / 5 ≤ syntheticBalance r ∧ syntheticBalance r ≤ 25 / 2
      ∧ (∃ k : ℕ, syntheticBalance r = (k : ℚ) / 10 ^ 4)
      ∧ (processWallet 100 w ⟨pp, r, lk, now, id, cid⟩
            { st with discoveryLock := false }).1.discovered
          = (processWallet 100 w ⟨pp, r, lk, now, id, cid⟩
              { st with discoveryLock := false }).2 :: st.discovered
      ∧ (processWallet 100 w ⟨pp, r, none, now, id, cid⟩
            { st with discoveryLock := false }).2.balance = syntheticBalance r
      ∧ (forcedHitCheck cal true r).1 = false := by
  intro w pp r now id cid st cal lk
  have hfc : forcedHitCheck 100 false r = (true, true, syntheticBalance r) := by
    unfold forcedHitCheck
    simp
  obtain ⟨hlo, hhi⟩ := syntheticBalance_bounds r
  refine ⟨hfc, hlo, hhi, syntheticBalance_decimal r, ?_, ?_, ?_⟩
  · have hb : 0 < (processWallet 100 w ⟨pp, r, lk, now, id, cid⟩
        { st with discoveryLock := false }).2.balance := by
      rw [processWallet_balance]
      exact lookupBalance_pos _ _ _ _ (by rw [show ({ st with discoveryLock := false } :
        ScanState).discoveryLock = false from rfl, hfc]; exact syntheticBalance_pos r)
    rw [processWallet_fst, if_pos (Or.inl hb)]
    rfl
  · rw [processWallet_balance]
    rw [show ({ st with discoveryLock := false } : ScanState).discoveryLock = false from rfl, hfc]
    unfold lookupBalance
    split
    · rfl
    · rfl
  · unfold forcedHitCheck
    simp

/-- C3 counterexample: at the concrete execution the claim describes — a
non-watch-target wallet processed with the calibration at 100 and the
lock clear, provider connected, and a live lookup that returns zero — the
record's balance is the synthetic 1.2 (not zero) and the record is routed
to the discoveries list, with the ordinary list left empty, refuting the
claimed zero-balance ordinary-list outcome. -/
theorem claim_C3_counterexample :
    (processWallet 100 sampleWallet
        { providerPresent := true, randDraw := 0, lookup := some 0, now := 7,
          newId := "w2", chainId := some 1 }
        { initialScanState with quantumCalibration := 100 }).2.balance = 6 / 5
    ∧ (processWallet 100 sampleWallet
        { providerPresent := true, randDraw := 0, lookup := some 0, now := 7,
          newId := "w2", chainId := some 1 }
        { initialScanState with quantumCalibration := 100 }).1.discovered
        = [(processWallet 100 sampleWallet
            { providerPresent := true, randDraw := 0, lookup := some 0, now := 7,
              newId := "w2", chainId := some 1 }
            { initialScanState with quantumCalibration := 100 }).2]
    ∧ (processWallet 100 sampleWallet
        { providerPresent := true, randDraw := 0, lookup := some 0, now := 7,
          newId := "w2", chainId := some 1 }
        { initialScanState with quantumCalibration := 100 }).1.wallets = [] := by
  have hsb : syntheticBalance 0 = 6 / 5 := by
    unfold syntheticBalance rand toFixed4
    norm_num [round_eq]
  have hfc : forcedHitCheck 100 false 0 = (true, true, syntheticBalance 0) := by
    unfold forcedHitCheck
    simp
  have hb : (processWallet 100 sampleWallet
      { providerPresent := true, randDraw := 0, lookup := some 0, now := 7,
        newId := "w2", chainId := some 1 }
      { initialScanState with quantumCalibration := 100 }).2.balance = 6 / 5 := by
    rw [processWallet_balance]
    rw [show ({ initialScanState with quantumCalibration := 100 } :
      ScanState).discoveryLock = false from rfl, hfc]
    unfold lookupBalance
    norm_num [formatEther, hsb]
  have hpos : 0 < (processWallet 100 sampleWallet
      { providerPresent := true, randDraw := 0, lookup := some 0, now := 7,
        newId := "w2", chainId := some 1 }
      { initialScanState with quantumCalibration := 100 }).2.balance := by
    rw [hb]; norm_num
  refine ⟨hb, ?_, ?_⟩ <;> · rw [processWallet_fst, if_pos (Or.inl hpos)]; try rfl

/-- C3 amended: when a forced hit is computed (calibration 100, lock
clear) and the live balance lookup returns zero, the zero result does NOT
overwrite the synthetic balance: the record keeps the synthetic value (at
least 1.2) and is routed to the discoveries list, never to the ordinary
list. -/
theorem claim_C3_amended :
    ∀ (w : WalletInfo) (r now : ℕ) (id : String) (cid : Option ℕ) (st : ScanState),
      (processWallet 100 w ⟨true, r, some 0, now, id, cid⟩
          { st with discoveryLock := false }).2.balance = syntheticBalance r
      ∧ 6 / 5 ≤ (processWallet 100 w ⟨true, r, some 0, now, id, cid⟩
          { st with discoveryLock := false }).2.balance
      ∧ (processWallet 100 w ⟨true, r, some 0, now, id, cid⟩
            { st with discoveryLock := false }).1.discovered
          = (processWallet 100 w ⟨true, r, some 0, now, id, cid⟩
              { st with discoveryLock := false }).2 :: st.discovered
      ∧ (processWallet 100 w ⟨true, r, some 0, now, id, cid⟩
            { st with discoveryLock := false }).1.wallets = st.wallets := by
  intro w r now id cid st
  have hfc : forcedHitCheck 100 false r = (true, true, syntheticBalance r) := by
    unfold forcedHitCheck
    simp
  have hb : (processWallet 100 w ⟨true, r, some 0, now, id, cid⟩
      { st with discoveryLock := false }).2.balance = syntheticBalance r := by
    rw [processWallet_balance]
    rw [show ({ st with discoveryLock := false } : ScanState).discoveryLock = false from rfl, hfc]
    unfold lookupBalance
    norm_num [formatEther]
  have hpos : 0 < (processWallet 100 w ⟨true, r, some 0, now, id, cid⟩
      { st with discoveryLock := false }).2.balance := by
    rw [hb]; exact syntheticBalance_pos r
  refine ⟨hb, by rw [hb]; exact (syntheticBalance_bounds r).1, ?_, ?_⟩ <;>
    · rw [processWallet_fst, if_pos (Or.inl hpos)]; try rfl

/-- C4: a tick while a scan is active adds a non-negative randomized
increment and clamps the result at 100 (so a value in [0,100] stays in
[0,100] and never decreases); `processWallet` either resets the state
calibration to exactly 0 or leaves it unchanged, resets it exactly when a
discovery is recorded, never forces a hit while the lock is set, and a
forced hit ends with the lock clear and the calibration at 0 (so a second
forced discovery requires an intervening reset). -/
theorem claim_C4_calibration (s l : Bool) (r : ℕ) (cal : ℚ)
    (h0 : 0 ≤ cal) (h1 : cal ≤ 100) :
    (0 ≤ calibrationTick s l r cal ∧ calibrationTick s l r cal ≤ 100
      ∧ cal ≤ calibrationTick s l r cal)
    ∧ (∀ (cal2 : ℚ) (w : WalletInfo) (env : ProcessEnv) (st : ScanState),
        (processWallet cal2 w env st).1.quantumCalibration
          = (if 0 < (processWallet cal2 w env st).2.balance ∨ isTargetMatch w.address = true
              then 0 else st.quantumCalibration))
    ∧ (∀ (cal2 : ℚ) (w : WalletInfo) (env : ProcessEnv) (st : ScanState),
        (processWallet cal2 w env st).1.discovered ≠ st.discovered →
          (processWallet cal2 w env st).1.quantumCalibration = 0)
    ∧ (∀ (r2 : ℕ) (cal3 : ℚ), (forcedHitCheck cal3 true r2).1 = false)
    ∧ (∀ (w : WalletInfo) (env : ProcessEnv) (st : ScanState),
        (processWallet 100 w env { st with discoveryLock := false }).1.discoveryLock = false
        ∧ (processWallet 100 w env { st with discoveryLock := false }).1.quantumCalibration
            = 0) := by
  have hmul : ∀ (l' : Bool), (0 : ℚ) ≤ (if l' then (45 : ℚ) / 10 else 8 / 10) := by
    intro l'; split <;> norm_num
  refine ⟨?_, ?_, ?_, ?_, ?_⟩
  · unfold calibrationTick
    have hinc : (0 : ℚ) ≤ rand r * (if l then (45 : ℚ) / 10 else 8 / 10) :=
      mul_nonneg (rand_nonneg r) (hmul l)
    by_cases hs : s
    · simp only [hs, if_true]
      by_cases hc : (100 : ℚ) ≤ cal + rand r * (if l then (45 : ℚ) / 10 else 8 / 10)
      · rw [if_pos hc]
        exact ⟨by norm_num, le_refl _, h1⟩
      · rw [if_neg hc]
        push_neg at hc
        exact ⟨by linarith, by linarith, by linarith⟩
    · simp only [hs, if_false]
      exact ⟨h0, h1, le_refl cal⟩
  · intro cal2 w env st
    rw [processWallet_fst]
    by_cases h : 0 < (processWallet cal2 w env st).2.balance ∨ isTargetMatch w.address = true
    · simp [h]
    · simp [h]
  · intro cal2 w env st hne
    rw [processWallet_fst]
    rw [processWallet_fst] at hne
    by_cases h : 0 < (processWallet cal2 w env st).2.balance ∨ isTargetMatch w.address = true
    · simp [h]
    · exfalso; apply hne; simp [h]
  · intro r2 cal3
    unfold forcedHitCheck
    simp
  · intro w env st
    have hfc : forcedHitCheck 100 false env.randDraw
        = (true, true, syntheticBalance env.randDraw) := by
      unfold forcedHitCheck
      simp
    have hb : 0 < (processWallet 100 w env { st with discoveryLock := false }).2.balance := by
      rw [processWallet_balance]
      exact lookupBalance_pos _ _ _ _ (by rw [show ({ st with discoveryLock := false } :
        ScanState).discoveryLock = false from rfl, hfc]; exact syntheticBalance_pos env.randDraw)
    rw [processWallet_fst, if_pos (Or.inl hb)]
    exact ⟨rfl, rfl⟩

/-- C4 witness: the calibration theorem instantiated at an active scan
with no luck pulse, seed 0 and the gauge at 0, plus the lock-guard fact
at seed 3 and calibration 7. -/
theorem claim_C4_calibration_witness :
    ((0 : ℚ) ≤ 0 ∧ (0 : ℚ) ≤ 100)
    ∧ (0 ≤ calibrationTick true false 0 0 ∧ calibrationTick true false 0 0 ≤ 100
        ∧ (0 : ℚ) ≤ calibrationTick true false 0 0)
    ∧ (forcedHitCheck 7 true 3).1 = false := by
  refine ⟨⟨by norm_num, by norm_num⟩, ?_, ?_⟩
  · exact (claim_C4_calibration true false 0 0 (by norm_num) (by norm_num)).1
  · exact (claim_C4_calibration true false 0 0 (by norm_num) (by norm_num)).2.2.2.1 3 7

/-- C6: for a wallet that is a watch-list match or a forced hit (with a
provider connected), a failed lookup or a zero lookup leaves the balance
at the already-computed synthetic/placeholder value, and a lookup result
overwrites the balance exactly when it is strictly positive; the record's
balance is exactly the output of this lookup step applied to the
forced-hit trigger's balance, which is the synthetic value for a forced
hit and the `'0.00'` placeholder otherwise. -/
theorem claim_C6_lookup :
    ∀ (t f : Bool) (b : ℚ) (n : ℕ) (cal : ℚ) (w : WalletInfo) (env : ProcessEnv)
      (st : ScanState),
      lookupBalance true t f none b = b
      ∧ lookupBalance true t f (some 0) b = b
      ∧ lookupBalance true t f (some (n + 1)) b
          = (if t || f then formatEther (n + 1) else b)
      ∧ (processWallet cal w env st).2.balance
          = lookupBalance env.providerPresent (isTargetMatch w.address)
              (forcedHitCheck cal st.discoveryLock env.randDraw).1 env.lookup
              (forcedHitCheck cal st.discoveryLock env.randDraw).2.2
      ∧ (forcedHitCheck cal st.discoveryLock env.randDraw).2.2
          = (if (forcedHitCheck cal st.discoveryLock env.randDraw).1
              then syntheticBalance env.randDraw else 0) := by
  intro t f b n cal w env st
  refine ⟨?_, ?_, ?_, processWallet_balance cal w env st, forcedHitCheck_balance _ _ _⟩
  · unfold lookupBalance
    split
    · rfl
    · rfl
  · unfold lookupBalance
    split
    · norm_num [formatEther]
    · rfl
  · unfold lookupBalance
    by_cases h : t || f
    · rw [if_pos h]
      simp only [Bool.true_and, h, if_true]
      rw [if_pos (formatEther_succ_pos n)]
    · rw [if_neg h]
      simp only [Bool.true_and] at h ⊢
      simp [h]

/-- The balance of a produced record comes from one of three paths: the
`'0.00'` default, the synthetic forced-hit value, or a strictly positive
live lookup result. -/
lemma processWallet_balance_cases (cal : ℚ) (w : WalletInfo) (env : ProcessEnv)
    (st : ScanState) :
    (processWallet cal w env st).2.balance = 0
    ∨ (processWallet cal w env st).2.balance = syntheticBalance env.randDraw
    ∨ ∃ wei : ℕ, (processWallet cal w env st).2.balance = formatEther wei
        ∧ 0 < formatEther wei := by
  rw [processWallet_balance]
  have hb0 : (forcedHitCheck cal st.discoveryLock env.randDraw).2.2 = 0
      ∨ (forcedHitCheck cal st.discoveryLock env.randDraw).2.2
          = syntheticBalance env.randDraw := by
    rw [forcedHitCheck_balance]
    split
    · right; rfl
    · left; rfl
  unfold lookupBalance
  split
  · split
    · rename_i wei hw
      by_cases h : 0 < formatEther wei
      · right; right; exact ⟨wei, by rw [if_pos h], h⟩
      · rw [if_neg h]
        rcases hb0 with h' | h'
        · left; exact h'
        · right; left; exact h'
    · rcases hb0 with h | h
      · left; exact h
      · right; left; exact h
  · rcases hb0 with h | h
    · left; exact h
    · right; left; exact h

/-- C10: every produced record's balance is a non-negative decimal value
(representable as k / 10^d for naturals k, d) whichever of the three
paths produced it, and, provided the ordinary-sightings list is in
newest-first timestamp order and the clock has not run backwards, it is
still in newest-first order after the wallet is processed. -/
theorem claim_C10_numeric (cal : ℚ) (w : WalletInfo) (env : ProcessEnv) (st : ScanState)
    (hs : SortedNewestFirst st.wallets)
    (hts : ∀ e ∈ st.wallets, e.timestamp ≤ env.now) :
    (0 ≤ (processWallet cal w env st).2.balance
      ∧ ∃ (k d : ℕ), (processWallet cal w env st).2.balance = (k : ℚ) / 10 ^ d)
    ∧ SortedNewestFirst (processWallet cal w env st).1.wallets := by
  constructor
  · rcases processWallet_balance_cases cal w env st with h | h | ⟨wei, h, hpos⟩
    · exact ⟨by rw [h], 0, 0, by rw [h]; norm_num⟩
    · refine ⟨by rw [h]; exact le_of_lt (syntheticBalance_pos env.randDraw), ?_⟩
      obtain ⟨k, hk⟩ := syntheticBalance_decimal env.randDraw
      exact ⟨k, 4, by rw [h, hk]⟩
    · exact ⟨by rw [h]; exact formatEther_nonneg wei, wei, 18, by rw [h]; rfl⟩
  · rw [processWallet_fst]
    by_cases h : 0 < (processWallet cal w env st).2.balance ∨ isTargetMatch w.address = true
    · rw [if_pos h]
      exact hs
    · rw [if_neg h]
      show SortedNewestFirst (insertOrdinary (processWallet cal w env st).2 st.wallets)
      unfold insertOrdinary SortedNewestFirst
      apply List.Chain'.take
      rw [List.chain'_cons']
      refine ⟨?_, hs⟩
      intro y hy
      rw [processWallet_timestamp]
      exact hts y (List.mem_of_mem_head? hy)

/-- C10 witness: the numeric theorem instantiated at the sample wallet,
the concrete environment and the empty initial state, whose ordinary
list is trivially sorted. -/
theorem claim_C10_numeric_witness :
    ((0 ≤ (processWallet 0 sampleWallet sampleEnv initialScanState).2.balance
      ∧ ∃ (k d : ℕ), (processWallet 0 sampleWallet sampleEnv initialScanState).2.balance
          = (k : ℚ) / 10 ^ d)
    ∧ SortedNewestFirst (processWallet 0 sampleWallet sampleEnv initialScanState).1.wallets) :=
  claim_C10_numeric 0 sampleWallet sampleEnv initialScanState
    (by simp [SortedNewestFirst, initialScanState])
    (by simp [initialScanState])

end EtherNode
